import Mathlib

/-!
Verification development for the `openclaw-topic-shift-reset` plugin
(`src/index.ts`).  The TypeScript source is shallowly embedded below:

* JS numbers that only ever hold integers (timestamps, counters, config
  integers) are modelled as `ℕ`/`ℤ`;
* JS numbers used as exact configuration constants are modelled as `ℚ`;
* computed scores, entropies and cosine similarities involve `Math.log2` /
  `Math.sqrt` and are modelled over `ℝ` (exact real arithmetic idealises
  IEEE-754 doubles);
* JS `Map` / plain-object registries are modelled as association lists that
  preserve insertion order, like JS iteration order;
* the effectful pipeline (`classifyAndMaybeRotate`, `rotateSessionEntry`)
  is modelled as a pure state transformer; file I/O, the file lock, logging
  and the embedding HTTP request are represented by explicit result flags or
  oracle parameters.  The handoff builder (pure I/O plus logging, no effect
  on classifier or registry state) is omitted.
-/

/-- Decision states of the classification state machine (`ClassificationDecision`
in the source; `rotate-hard` / `rotate-soft` spelled `rotateHard` / `rotateSoft`). -/
inductive DecisionKind
  | warmup
  | stable
  | suspect
  | rotateSoft
  | rotateHard
deriving DecidableEq, Repr

/-- `HistoryEntry` from the source: token set, optional embedding vector,
timestamp (`at` renamed `atTime`, `at` being reserved). -/
structure HistoryEntry where
  tokens : Finset String
  embedding : Option (List ℚ)
  atTime : ℤ
deriving DecidableEq

/-- `SessionState` from the source. -/
structure SessionState where
  history : List HistoryEntry
  pendingSoftSignals : ℕ
  pendingEntries : List HistoryEntry
  lastResetAt : Option ℤ
  topicCentroid : Option (List ℚ)
  topicCount : ℕ
  topicDim : Option ℕ
  lastSeenAt : ℤ
deriving DecidableEq

/-- `ClassifierMetrics` from the source. -/
structure ClassifierMetrics where
  score : ℝ
  novelty : ℝ
  lexicalDistance : ℝ
  uniqueTokenRatio : ℝ
  entropy : ℝ
  similarity : Option ℝ
  usedEmbedding : Bool
  pendingSoftSignals : ℕ

/-- `LexicalFeatures` from the source. -/
structure LexicalFeatures where
  score : ℝ
  novelty : ℝ
  lexicalDistance : ℝ
  uniqueTokenRatio : ℝ
  entropy : ℝ

/-- A classification decision: kind, metrics and the log reason string. -/
structure ClassificationDecision where
  kind : DecisionKind
  metrics : ClassifierMetrics
  reason : String

/-- The fields of `ResolvedConfig` exercised by the classifier and rotation
executor.  (Handoff, embedding-backend and envelope-strip configuration feed
only the parts of the source that are abstracted away here.) -/
structure ResolvedConfig where
  enabled : Bool
  historyWindow : ℕ
  minHistoryMessages : ℕ
  minMeaningfulTokens : ℕ
  minTokenLength : ℕ
  minSignalChars : ℕ
  minSignalTokenCount : ℕ
  minSignalEntropy : ℚ
  minUniqueTokenRatio : ℚ
  shortMessageTokenLimit : ℕ
  embeddingTriggerMargin : ℚ
  softConsecutiveSignals : ℕ
  cooldownMinutes : ℕ
  ignoredProviders : List String
  softScoreThreshold : ℚ
  hardScoreThreshold : ℚ
  softSimilarityThreshold : ℚ
  hardSimilarityThreshold : ℚ
  softNoveltyThreshold : ℚ
  hardNoveltyThreshold : ℚ
  dryRun : Bool
deriving DecidableEq

/-- `MAX_TRACKED_SESSIONS` constant from the source. -/
def MAX_TRACKED_SESSIONS : ℕ := 10000

/-- `STALE_SESSION_STATE_MS` constant from the source (4 hours). -/
def STALE_SESSION_STATE_MS : ℤ := 4 * 60 * 60 * 1000

/-- `MAX_RECENT_FAST_EVENTS` constant from the source. -/
def MAX_RECENT_FAST_EVENTS : ℕ := 20000

/-- `ROTATION_DEDUPE_MS` constant from the source. -/
def ROTATION_DEDUPE_MS : ℤ := 25000

/-- One FNV-1a step of `hashString`: xor the character code in, multiply by
the FNV prime with JS `Math.imul` 32-bit wrap-around semantics. -/
def hashStep (h : ℕ) (code : ℕ) : ℕ := ((h ^^^ code) * 0x01000193) % 4294967296

/-- `hashString` from the source: 32-bit FNV-1a over the character codes,
rendered in lowercase hex.  (`charCodeAt` yields UTF-16 units; for the
basic-plane strings fed to it this equals the code point used here.) -/
def hashString (input : String) : String :=
  let h := input.toList.foldl (fun acc c => hashStep acc c.toNat) 0x811c9dc5
  String.mk (Nat.toDigits 16 h)

/-- JS `String.prototype.trim`, modelled structurally over the character
list (strip leading and trailing whitespace). -/
def jsTrim (s : String) : String :=
  String.mk (((s.toList.dropWhile Char.isWhitespace).reverse.dropWhile
    Char.isWhitespace).reverse)

/-- JS `text.startsWith("/")`, modelled structurally: does the first
character equal `/`. -/
def startsWithSlash (text : String) : Bool :=
  match text.toList with
  | c :: _ => c == '/'
  | [] => false

/-- Helper for `normalizeTextForHash`: collapse every whitespace run to a
single space (the `replace(/\s+/g, " ")` step). -/
def collapseWhitespaceAux : List Char → Bool → List Char
  | [], _ => []
  | c :: rest, inWs =>
    if c.isWhitespace then
      if inWs then collapseWhitespaceAux rest true
      else ' ' :: collapseWhitespaceAux rest true
    else c :: collapseWhitespaceAux rest false

/-- `normalizeTextForHash` from the source: lowercase, collapse whitespace,
trim.  (The NFKC normalisation pass is the identity on the ASCII strings
considered here and is not modelled.) -/
def normalizeTextForHash (text : String) : String :=
  jsTrim (String.mk (collapseWhitespaceAux (text.toList.map Char.toLower) false))

/-- A character that can start a token under the source's token regex
`[\p{L}\p{N}][\p{L}\p{N}_-]*` (ASCII approximation of the Unicode classes). -/
def isTokenStartChar (c : Char) : Bool := c.isAlphanum

/-- A character that can continue a token under the source's token regex. -/
def isTokenContChar (c : Char) : Bool := c.isAlphanum || c == '_' || c == '-'

/-- Scanner computing the maximal token runs matched by the source's regex:
a run starts at a letter/digit and extends over letters/digits/`_`/`-`. -/
def tokenRunsAux : List Char → Option (List Char) → List (List Char)
  | [], none => []
  | [], some run => [run.reverse]
  | c :: rest, none =>
    if isTokenStartChar c then tokenRunsAux rest (some [c])
    else tokenRunsAux rest none
  | c :: rest, some run =>
    if isTokenContChar c then tokenRunsAux rest (some (c :: run))
    else if isTokenStartChar c then run.reverse :: tokenRunsAux rest (some [c])
    else run.reverse :: tokenRunsAux rest none

/-- `tokenizeList` from the source: lowercase the text, extract the regex
token runs, keep the tokens whose length reaches `minTokenLength`.
(NFKC normalisation and URL stripping are the identity on the inputs used
here and are not modelled.) -/
def tokenizeList (text : String) (minTokenLength : ℕ) : List String :=
  ((tokenRunsAux (text.toList.map Char.toLower) none).map fun cs => String.mk cs).filter
    fun token => decide (minTokenLength ≤ token.length)

/-- `tokenEntropy` from the source: Shannon entropy (base 2) of the token
frequency distribution, summed over the distinct tokens (the counts-map
iteration of the source, modelled by `List.dedup`; the sum does not depend
on the enumeration order). -/
noncomputable def tokenEntropy (tokens : List String) : ℝ :=
  if tokens = [] then 0
  else
    (tokens.dedup.map fun t =>
      let p : ℝ := (tokens.count t : ℝ) / (tokens.length : ℝ);
      -(p * Real.logb 2 p)).sum

/-- `unionTokens` from the source: union of the token sets of a history. -/
def unionTokens (entries : List HistoryEntry) : Finset String :=
  entries.foldl (fun acc e => acc ∪ e.tokens) ∅

/-- `jaccardSimilarity` from the source, including its degenerate cases:
both sets empty gives 1, exactly one empty gives 0. -/
noncomputable def jaccardSimilarity (left right : Finset String) : ℝ :=
  if left.card = 0 ∧ right.card = 0 then 1
  else if left.card = 0 ∨ right.card = 0 then 0
  else
    let overlap := (left ∩ right).card
    let unionSize := left.card + right.card - overlap
    if unionSize = 0 then 0 else (overlap : ℝ) / (unionSize : ℝ)

/-- `noveltyRatio` from the source: fraction of the current tokens absent
from the baseline; 0 for an empty current set. -/
noncomputable def noveltyRatio (current baseline : Finset String) : ℝ :=
  if current.card = 0 then 0
  else ((current.filter fun t => t ∉ baseline).card : ℝ) / (current.card : ℝ)

/-- `cosineSimilarity` from the source: `undefined` (here `none`) on empty or
mismatched dimensions and on zero-magnitude vectors. -/
noncomputable def cosineSimilarity (a b : List ℚ) : Option ℝ :=
  if a.length = 0 ∨ b.length = 0 ∨ a.length ≠ b.length then none
  else
    let dot : ℚ := ((a.zip b).map fun p => p.1 * p.2).sum
    let normA : ℚ := (a.map fun x => x * x).sum
    let normB : ℚ := (b.map fun x => x * x).sum
    if normA = 0 ∨ normB = 0 then none
    else some ((dot : ℝ) / (Real.sqrt (normA : ℝ) * Real.sqrt (normB : ℝ)))

/-- `seedTopicCentroid` from the source. -/
def seedTopicCentroid (state : SessionState) (vector : Option (List ℚ)) : SessionState :=
  match vector with
  | none => { state with topicCentroid := none, topicCount := 0, topicDim := none }
  | some v =>
    if v.length = 0 then { state with topicCentroid := none, topicCount := 0, topicDim := none }
    else { state with topicCentroid := some v, topicCount := 1, topicDim := some v.length }

/-- `updateTopicCentroid` from the source: incremental arithmetic-mean update,
reseeding on dimension mismatch or a zero count. -/
def updateTopicCentroid (state : SessionState) (vector : Option (List ℚ)) : SessionState :=
  match vector with
  | none => state
  | some v =>
    if v.length = 0 then state
    else
      match state.topicCentroid with
      | some c =>
        if c.length = v.length ∧ state.topicCount ≠ 0 then
          let nextCount := state.topicCount + 1
          { state with
            topicCentroid := some (List.zipWith (fun ci vi => ci + (vi - ci) / (nextCount : ℚ)) c v)
            topicCount := nextCount
            topicDim := some v.length }
        else seedTopicCentroid state (some v)
      | none => seedTopicCentroid state (some v)

/-- `trimHistory` from the source: keep the most recent `limit` entries. -/
def trimHistory (entries : List HistoryEntry) (limit : ℕ) : List HistoryEntry :=
  if entries.length ≤ limit then entries
  else entries.drop (entries.length - limit)

/-- `computeLexicalFeatures` from the source: Jaccard distance and novelty
against the baseline, a 0.55/0.45 distance/novelty blend, penalties for a low
unique-token ratio and (for short messages) low entropy, clamped to [0,1]. -/
noncomputable def computeLexicalFeatures (cfg : ResolvedConfig) (entryTokens : Finset String)
    (tokenList : List String) (baselineTokens : Finset String) : LexicalFeatures :=
  let lexicalSimilarity := jaccardSimilarity entryTokens baselineTokens
  let lexicalDistance := 1 - lexicalSimilarity
  let novelty := noveltyRatio entryTokens baselineTokens
  let uniqueTokenRatio : ℝ :=
    if 0 < tokenList.length then (entryTokens.card : ℝ) / (tokenList.length : ℝ) else 0
  let entropy := tokenEntropy tokenList
  let score0 := 0.55 * lexicalDistance + 0.45 * novelty
  let score1 :=
    if uniqueTokenRatio < (cfg.minUniqueTokenRatio : ℝ) then
      score0 - ((cfg.minUniqueTokenRatio : ℝ) - uniqueTokenRatio) * 0.4
    else score0
  let score2 :=
    if tokenList.length ≤ cfg.shortMessageTokenLimit then
      (if entropy < (cfg.minSignalEntropy : ℝ) then
        score1 - ((cfg.minSignalEntropy : ℝ) - entropy) * 0.06
      else score1)
    else score1
  { score := max 0 (min 1 score2)
    novelty := novelty
    lexicalDistance := lexicalDistance
    uniqueTokenRatio := uniqueTokenRatio
    entropy := entropy }

/-- `shouldRequestEmbedding` from the source: only for ambiguous messages,
never during warmup or cooldown. -/
def shouldRequestEmbedding (cfg : ResolvedConfig) (backendAvailable : Bool)
    (lexical : LexicalFeatures) (warmup cooldownFlag : Bool) : Prop :=
  if !backendAvailable || warmup || cooldownFlag then False
  else
    ((cfg.softScoreThreshold : ℝ) - (cfg.embeddingTriggerMargin : ℝ) ≤ lexical.score) ∨
      ((cfg.softNoveltyThreshold : ℝ) * 0.9 ≤ lexical.novelty ∧
        (0.35 : ℝ) ≤ lexical.lexicalDistance)

/-- The `cooldownActive` computation inlined in `classifyMessage` (and in
`classifyAndMaybeRotate`): a positive cooldown window that has not yet
elapsed since `lastResetAt`. -/
def cooldownActive (cooldownMinutes : ℕ) (lastResetAt : Option ℤ) (now : ℤ) : Bool :=
  decide (0 < (cooldownMinutes : ℤ) * 60000) &&
    (match lastResetAt with
     | some t => decide (now - t < (cooldownMinutes : ℤ) * 60000)
     | none => false)

/-- The fused-score computation at the top of `classifyMessage`. -/
noncomputable def fusedScore (lexical : LexicalFeatures) (similarity : Option ℝ)
    (usedEmbedding : Bool) : ℝ :=
  match usedEmbedding, similarity with
  | true, some s => 0.7 * (1 - s) + 0.15 * lexical.lexicalDistance + 0.15 * lexical.novelty
  | _, _ => lexical.score

/-- The `hardSignal` condition of `classifyMessage`. -/
def hardSignal (cfg : ResolvedConfig) (lexical : LexicalFeatures) (similarity : Option ℝ)
    (usedEmbedding : Bool) (score : ℝ) : Prop :=
  (cfg.hardScoreThreshold : ℝ) ≤ score ∨
    (match usedEmbedding, similarity with
     | true, some s =>
       s ≤ (cfg.hardSimilarityThreshold : ℝ) ∧ (cfg.hardNoveltyThreshold : ℝ) ≤ lexical.novelty
     | _, _ =>
       (cfg.hardNoveltyThreshold : ℝ) ≤ lexical.novelty ∧ (0.65 : ℝ) ≤ lexical.lexicalDistance)

/-- The `softSignal` condition of `classifyMessage`. -/
def softSignal (cfg : ResolvedConfig) (lexical : LexicalFeatures) (similarity : Option ℝ)
    (usedEmbedding : Bool) (score : ℝ) : Prop :=
  (cfg.softScoreThreshold : ℝ) ≤ score ∨
    (match usedEmbedding, similarity with
     | true, some s =>
       s ≤ (cfg.softSimilarityThreshold : ℝ) ∧ (cfg.softNoveltyThreshold : ℝ) ≤ lexical.novelty
     | _, _ =>
       (cfg.softNoveltyThreshold : ℝ) ≤ lexical.novelty ∧ (0.45 : ℝ) ≤ lexical.lexicalDistance)

open Classical in
/-- `classifyMessage` from the source: warmup gate, cooldown gate, hard
signal, soft signal with consecutive-signal confirmation. -/
noncomputable def classifyMessage (cfg : ResolvedConfig) (state : SessionState)
    (baselineTokenCount : ℕ) (lexical : LexicalFeatures) (similarity : Option ℝ)
    (usedEmbedding : Bool) (now : ℤ) : ClassificationDecision :=
  let score := fusedScore lexical similarity usedEmbedding
  let metrics : ClassifierMetrics :=
    { score := score
      novelty := lexical.novelty
      lexicalDistance := lexical.lexicalDistance
      uniqueTokenRatio := lexical.uniqueTokenRatio
      entropy := lexical.entropy
      similarity := similarity
      usedEmbedding := usedEmbedding
      pendingSoftSignals := state.pendingSoftSignals }
  if state.history.length < cfg.minHistoryMessages ∨ baselineTokenCount < cfg.minMeaningfulTokens then
    ⟨DecisionKind.warmup, metrics, "warmup"⟩
  else if cooldownActive cfg.cooldownMinutes state.lastResetAt now then
    ⟨DecisionKind.stable, metrics, "cooldown"⟩
  else if hardSignal cfg lexical similarity usedEmbedding score then
    ⟨DecisionKind.rotateHard, metrics, "hard-threshold"⟩
  else if ¬ softSignal cfg lexical similarity usedEmbedding score then
    ⟨DecisionKind.stable, metrics, "stable"⟩
  else if cfg.softConsecutiveSignals ≤ state.pendingSoftSignals + 1 then
    ⟨DecisionKind.rotateSoft, metrics, "soft-confirmed"⟩
  else
    ⟨DecisionKind.suspect, metrics, "soft-suspect"⟩

/-- `SessionEntryLike` from the source: the host-owned registry entry.
Unknown host fields are carried opaquely in `extra` and never touched. -/
structure SessionEntryLike where
  sessionId : Option String
  updatedAt : Option ℤ
  systemSent : Option Bool
  abortedLastRun : Option Bool
  inputTokens : Option ℚ
  outputTokens : Option ℚ
  totalTokens : Option ℚ
  totalTokensFresh : Option Bool
  sessionFile : Option String
  extra : List (String × String)
deriving DecidableEq

/-- The registry file contents: a JSON map of session key to entry, modelled
as an insertion-ordered association list. -/
abbrev SessionStore : Type := List (String × SessionEntryLike)

/-- Set a key in a JS-map-like association list: replace in place when the
key exists, append otherwise. -/
def assocSet {α : Type} (m : List (String × α)) (k : String) (v : α) : List (String × α) :=
  if m.any fun kv => kv.1 == k then
    m.map fun kv => if kv.1 == k then (k, v) else kv
  else m ++ [(k, v)]

/-- `findStoreKey` from the source: exact key, else first case-insensitive
match among the store's keys. -/
def findStoreKey (store : SessionStore) (sessionKey : String) : Option String :=
  if (List.lookup sessionKey store).isSome then some sessionKey
  else
    let normalized := sessionKey.toLower
    (store.map Prod.fst).find? fun key => key.toLower == normalized

/-- The replacement entry built inside `rotateSessionEntry`: fresh identity,
counters reset, stale transcript pointer dropped, unknown fields untouched. -/
def rotatedEntry (current : SessionEntryLike) (newId : String) (now : ℤ) : SessionEntryLike :=
  { current with
    sessionId := some newId
    updatedAt := some now
    systemSent := some false
    abortedLastRun := some false
    inputTokens := some 0
    outputTokens := some 0
    totalTokens := some 0
    totalTokensFresh := some true
    sessionFile := none }

/-- Result of a `rotateSessionEntry` call.  `lockUsed`, `storeRead`,
`storeWritten` record whether the file lock was taken, the registry file
read, and the registry file written; `warnedNoEntry` and `loggedWouldRotate`
record the warning / dry-run log lines. -/
structure RotateResult where
  rotated : Bool
  store : SessionStore
  state : SessionState
  lockUsed : Bool
  storeRead : Bool
  storeWritten : Bool
  warnedNoEntry : Bool
  loggedWouldRotate : Bool
deriving DecidableEq

/-- `rotateSessionEntry` from the source.  The dry-run branch returns before
the lock is taken; the missing-entry branch returns out of the locked
callback before any write; only the successful branch writes the store and
resets the in-memory session state.  (The handoff build and the log lines
after a successful write have no effect on the modelled state.) -/
def rotateSessionEntry (cfg : ResolvedConfig) (sessionKey : String) (entry : HistoryEntry)
    (state : SessionState) (store : SessionStore) (newId : String) (now : ℤ) : RotateResult :=
  if cfg.dryRun then
    { rotated := true, store := store, state := state, lockUsed := false, storeRead := false
      storeWritten := false, warnedNoEntry := false, loggedWouldRotate := true }
  else
    match findStoreKey store sessionKey with
    | none =>
      { rotated := false, store := store, state := state, lockUsed := true, storeRead := true
        storeWritten := false, warnedNoEntry := true, loggedWouldRotate := false }
    | some storeKey =>
      match List.lookup storeKey store with
      | none =>
        { rotated := false, store := store, state := state, lockUsed := true, storeRead := true
          storeWritten := false, warnedNoEntry := true, loggedWouldRotate := false }
      | some current =>
        let next := rotatedEntry current newId now
        let store2 := assocSet store storeKey next
        let state2 := seedTopicCentroid
          { state with
            lastResetAt := some now
            pendingSoftSignals := 0
            pendingEntries := []
            history := trimHistory [entry] cfg.historyWindow } entry.embedding
        { rotated := true, store := store2, state := state2, lockUsed := true, storeRead := true
          storeWritten := true, warnedNoEntry := false, loggedWouldRotate := false }

/-- `pruneStateMaps` from the source: drop stale session states, then evict
oldest-by-`lastSeenAt` entries above the tracked-session cap. -/
def pruneStateMaps (now : ℤ) (m : List (String × SessionState)) : List (String × SessionState) :=
  let fresh := m.filter fun kv => decide (now - kv.2.lastSeenAt ≤ STALE_SESSION_STATE_MS)
  if fresh.length ≤ MAX_TRACKED_SESSIONS then fresh
  else
    let excess := fresh.length - MAX_TRACKED_SESSIONS
    let dropKeys :=
      ((fresh.mergeSort fun a b => decide (a.2.lastSeenAt ≤ b.2.lastSeenAt)).take excess).map
        Prod.fst
    fresh.filter fun kv => decide (kv.1 ∉ dropKeys)

/-- `pruneRecentMap` from the source: drop expired timestamps, then evict
oldest entries above the size cap. -/
def pruneRecentMap (now : ℤ) (ttlMs : ℤ) (maxSize : ℕ) (m : List (String × ℤ)) :
    List (String × ℤ) :=
  let fresh := m.filter fun kv => decide (now - kv.2 ≤ ttlMs)
  if fresh.length ≤ maxSize then fresh
  else
    let excess := fresh.length - maxSize
    let dropKeys := ((fresh.mergeSort fun a b => decide (a.2 ≤ b.2)).take excess).map Prod.fst
    fresh.filter fun kv => decide (kv.1 ∉ dropKeys)

/-- The mutable world touched by `classifyAndMaybeRotate`: the in-memory
session-state map, the rotation-dedupe map, and the on-disk registry. -/
structure World where
  sessionState : List (String × SessionState)
  recentRotation : List (String × ℤ)
  store : SessionStore

/-- The decision dispatch at the tail of `classifyAndMaybeRotate`
(the four `decision.kind` branches): returns the updated session state,
the updated world, and the rotation result when a rotation was attempted. -/
def applyDecision (cfg : ResolvedConfig) (sessionKey : String)
    (decision : ClassificationDecision) (state : SessionState) (entry : HistoryEntry)
    (contentHash : String) (newId : String) (now : ℤ) (w : World) :
    SessionState × World × Option RotateResult :=
  match decision.kind with
  | DecisionKind.warmup =>
    let state2 := updateTopicCentroid
      { state with
        pendingSoftSignals := 0
        pendingEntries := []
        history := trimHistory (state.history ++ [entry]) cfg.historyWindow } entry.embedding
    (state2,
      { w with sessionState := pruneStateMaps now (assocSet w.sessionState sessionKey state2) },
      none)
  | DecisionKind.stable =>
    let merged := state.history ++ state.pendingEntries ++ [entry]
    let state1 := (state.pendingEntries ++ [entry]).foldl
      (fun st item => updateTopicCentroid st item.embedding) state
    let state2 :=
      { state1 with
        pendingSoftSignals := 0
        pendingEntries := []
        history := trimHistory merged cfg.historyWindow }
    (state2,
      { w with sessionState := pruneStateMaps now (assocSet w.sessionState sessionKey state2) },
      none)
  | DecisionKind.suspect =>
    let state2 :=
      { state with
        pendingSoftSignals := state.pendingSoftSignals + 1
        pendingEntries := trimHistory (state.pendingEntries ++ [entry]) cfg.softConsecutiveSignals }
    (state2,
      { w with sessionState := pruneStateMaps now (assocSet w.sessionState sessionKey state2) },
      none)
  | DecisionKind.rotateSoft =>
    let r := rotateSessionEntry cfg sessionKey entry state w.store newId now
    let recent1 :=
      if r.rotated && !cfg.dryRun then
        assocSet w.recentRotation (sessionKey ++ ":" ++ contentHash) now
      else w.recentRotation
    let recent2 := pruneRecentMap now (ROTATION_DEDUPE_MS * 3) MAX_RECENT_FAST_EVENTS recent1
    (r.state,
      { sessionState := pruneStateMaps now (assocSet w.sessionState sessionKey r.state)
        recentRotation := recent2
        store := r.store },
      some r)
  | DecisionKind.rotateHard =>
    let r := rotateSessionEntry cfg sessionKey entry state w.store newId now
    let recent1 :=
      if r.rotated && !cfg.dryRun then
        assocSet w.recentRotation (sessionKey ++ ":" ++ contentHash) now
      else w.recentRotation
    let recent2 := pruneRecentMap now (ROTATION_DEDUPE_MS * 3) MAX_RECENT_FAST_EVENTS recent1
    (r.state,
      { sessionState := pruneStateMaps now (assocSet w.sessionState sessionKey r.state)
        recentRotation := recent2
        store := r.store },
      some r)

/-- Log/flow record of one `classifyAndMaybeRotate` run. -/
structure StepLog where
  skippedLowSignal : Bool := false
  skippedDedupe : Bool := false
  decision : Option ClassificationDecision := none
  rotate : Option RotateResult := none

/-- The fresh session state created on a key's first classified message. -/
def freshSessionState (now : ℤ) : SessionState :=
  { history := []
    pendingSoftSignals := 0
    pendingEntries := []
    lastResetAt := none
    topicCentroid := none
    topicCount := 0
    topicDim := none
    lastSeenAt := now }

open Classical in
/-- `classifyAndMaybeRotate` from the source, as a pure state transformer.
`text` is the message text after trimming and envelope stripping (the
regex-driven `stripClassifierEnvelope` runs upstream of everything modelled
here); `backendAvailable` abstracts `!!embeddingBackend`; `embedResult` is
the oracle outcome of the embedding HTTP request (`none` covering failures
and exceptions); `newId` stands for the fresh `randomUUID`.  All `Date.now()`
reads within one run are idealised to the single instant `now`. -/
noncomputable def classifyAndMaybeRotate (cfg : ResolvedConfig)
    (sessionKeyRaw provider text : String) (backendAvailable : Bool)
    (embedResult : Option (List ℚ)) (newId : String) (now : ℤ) (w : World) :
    World × StepLog :=
  if !cfg.enabled then (w, {}) else
  let sessionKey := jsTrim sessionKeyRaw
  if sessionKey = "" then (w, {}) else
  if provider ≠ "" ∧ provider ∈ cfg.ignoredProviders then (w, {}) else
  if text = "" ∨ startsWithSlash text then (w, {}) else
  let tokenList := tokenizeList text cfg.minTokenLength
  if text.length < cfg.minSignalChars ∨ tokenList.length < cfg.minSignalTokenCount then
    (w, { skippedLowSignal := true }) else
  let tokens := tokenList.toFinset
  let contentHash := hashString (normalizeTextForHash text)
  let dedupeHit :=
    match List.lookup (sessionKey ++ ":" ++ contentHash) w.recentRotation with
    | some lastRotationAt => decide (now - lastRotationAt < ROTATION_DEDUPE_MS)
    | none => false
  if dedupeHit then (w, { skippedDedupe := true }) else
  let state0 := (List.lookup sessionKey w.sessionState).getD (freshSessionState now)
  let state := { state0 with lastSeenAt := now }
  let baselineTokens := unionTokens state.history
  let lexical := computeLexicalFeatures cfg tokens tokenList baselineTokens
  let warmup :=
    decide (state.history.length < cfg.minHistoryMessages) ||
      decide (baselineTokens.card < cfg.minMeaningfulTokens)
  let cooldownFlag := cooldownActive cfg.cooldownMinutes state.lastResetAt now
  let embedding : Option (List ℚ) :=
    if shouldRequestEmbedding cfg backendAvailable lexical warmup cooldownFlag ∧
        backendAvailable = true then
      match embedResult with
      | some v => if 0 < v.length then some v else none
      | none => none
    else none
  let entry : HistoryEntry := { tokens := tokens, embedding := embedding, atTime := now }
  let similarity : Option ℝ :=
    match entry.embedding, state.topicCentroid with
    | some e, some c => cosineSimilarity e c
    | _, _ => none
  let decision :=
    classifyMessage cfg state baselineTokens.card lexical similarity similarity.isSome now
  let result := applyDecision cfg sessionKey decision state entry contentHash newId now w
  (result.2.1, { decision := some decision, rotate := result.2.2 })

/-- `PersistedSnapshot` from the spec's data model (§3). -/
structure PersistedSnapshot where
  version : ℤ
  savedAt : ℤ
  sessionStateBySessionKey : List (String × SessionState)
  recentRotationBySession : List (String × ℤ)

/-- The runtime's expected snapshot schema version (the tests persist and
reload `runtime-state.v1.json` with `version` 1). -/
def EXPECTED_STATE_VERSION : ℤ := 1

/-- Modelled from the spec: the startup snapshot loader is not part of
`src/index.ts` (only the test suite exercises it, via
`runtime-state.v1.json`).  Per spec §3/§4.8/§7: read the snapshot once at
startup, and on any `version` mismatch discard the entire snapshot — never
partially trusted — log a warning, and start with empty in-memory state.
Returns (session-state map, rotation-dedupe map, warned). -/
def loadPersistedSnapshot (snapshot : Option PersistedSnapshot) :
    (List (String × SessionState)) × (List (String × ℤ)) × Bool :=
  match snapshot with
  | none => ([], [], false)
  | some snap =>
    if snap.version ≠ EXPECTED_STATE_VERSION then ([], [], true)
    else (snap.sessionStateBySessionKey, snap.recentRotationBySession, false)

/-- The resolved `balanced` preset combined with the `DEFAULTS` of the
source (the configuration produced by `resolveConfig({})`). -/
def cfgBalanced : ResolvedConfig :=
  { enabled := true
    historyWindow := 10
    minHistoryMessages := 3
    minMeaningfulTokens := 6
    minTokenLength := 2
    minSignalChars := 20
    minSignalTokenCount := 3
    minSignalEntropy := 1.2
    minUniqueTokenRatio := 0.34
    shortMessageTokenLimit := 6
    embeddingTriggerMargin := 0.08
    softConsecutiveSignals := 2
    cooldownMinutes := 5
    ignoredProviders := []
    softScoreThreshold := 0.72
    hardScoreThreshold := 0.86
    softSimilarityThreshold := 0.36
    hardSimilarityThreshold := 0.24
    softNoveltyThreshold := 0.58
    hardNoveltyThreshold := 0.74
    dryRun := false }

/-- `cfgBalanced` with `dryRun` enabled. -/
def cfgDryRun : ResolvedConfig := { cfgBalanced with dryRun := true }

/-- Baseline history entries for concrete runs. -/
def histA : HistoryEntry := ⟨{"kernel", "driver"}, none, 10⟩

/-- Second baseline history entry. -/
def histB : HistoryEntry := ⟨{"kernel", "module"}, none, 20⟩

/-- Third baseline history entry. -/
def histC : HistoryEntry := ⟨{"driver", "module", "patch"}, none, 30⟩

/-- A triggering message entry unrelated to the baseline. -/
def entryNew : HistoryEntry := ⟨{"garden", "flower"}, none, 100⟩

/-- A warmed-up session carrying one pending soft signal. -/
def stateP : SessionState :=
  { history := [histA, histB, histC]
    pendingSoftSignals := 1
    pendingEntries := [entryNew]
    lastResetAt := none
    topicCentroid := none
    topicCount := 0
    topicDim := none
    lastSeenAt := 100 }

/-- A warmed-up session inside its cooldown window (`lastResetAt` 0). -/
def stateCooldown : SessionState := { stateP with pendingSoftSignals := 0, lastResetAt := some 0 }

/-- A registry entry for the canonical session key. -/
def entryLikeMain : SessionEntryLike :=
  { sessionId := some "main-initial-session"
    updatedAt := some 50
    systemSent := none
    abortedLastRun := none
    inputTokens := none
    outputTokens := none
    totalTokens := none
    totalTokensFresh := none
    sessionFile := none
    extra := [("channel", "main")] }

/-- A registry holding exactly the canonical session key. -/
def storeMain : SessionStore := [("agent:main:main", entryLikeMain)]

/-- An empty world (no tracked sessions, no dedupe entries, empty registry). -/
def worldEmpty : World := ⟨[], [], []⟩

/-- Placeholder metrics for directly-built decisions. -/
noncomputable def metricsZero : ClassifierMetrics := ⟨0, 0, 0, 0, 0, none, false, 0⟩

/-- Concrete lexical features that sit between the soft and hard score
thresholds of `cfgBalanced`. -/
noncomputable def lexSoft : LexicalFeatures :=
  { score := 0.8, novelty := 0.5, lexicalDistance := 0.6, uniqueTokenRatio := 1, entropy := 2 }

/-- A 24-character, 5-token, zero-entropy message. -/
def txtLowEntropy : String := "aaaa aaaa aaaa aaaa aaaa"

/-- Token list of a 7-token message (above `shortMessageTokenLimit`). -/
def tokens7 : List String := ["alpha", "bravo", "charlie", "delta", "echo", "foxtrot", "golf"]

/-- The token set of `tokens7`. -/
def cur7 : Finset String := tokens7.toFinset

/-- A two-token baseline overlapping `cur7` in exactly one token. -/
def base2 : Finset String := {"golf", "hotel"}

/-- Token list of a 3-token message disjoint from `baseD`. -/
def tokensD : List String := ["quantum", "entangle", "qubit"]

/-- The token set of `tokensD`. -/
def curD : Finset String := tokensD.toFinset

/-- A baseline disjoint from `curD`. -/
def baseD : Finset String := {"garden", "flower", "soil"}

/-- A persisted snapshot carrying a wrong schema version (the test suite's
`version: 999` scenario). -/
def snap999 : PersistedSnapshot :=
  { version := 999
    savedAt := 0
    sessionStateBySessionKey := [("agent:main:main", freshSessionState 0)]
    recentRotationBySession := [] }

/-- The lexical composite score as the spec's amended sentence words it:
0.55/0.45 blend with lexical distance weighted slightly higher than novelty,
a downward adjustment when the unique-token ratio is under its floor and —
for messages of at most `shortMessageTokenLimit` tokens — when the entropy
is under its floor, clamped to [0,1]. -/
noncomputable def specLexicalScore (cfg : ResolvedConfig) (entryTokens : Finset String)
    (tokenList : List String) (baselineTokens : Finset String) : ℝ :=
  let distance := 1 - jaccardSimilarity entryTokens baselineTokens
  let novelty := noveltyRatio entryTokens baselineTokens
  let uniqueTokenRatio : ℝ :=
    if 0 < tokenList.length then (entryTokens.card : ℝ) / (tokenList.length : ℝ) else 0
  let blend := 0.55 * distance + 0.45 * novelty
  let uniqueAdjustment :=
    if uniqueTokenRatio < (cfg.minUniqueTokenRatio : ℝ) then
      ((cfg.minUniqueTokenRatio : ℝ) - uniqueTokenRatio) * 0.4
    else 0
  let entropyAdjustment :=
    if tokenList.length ≤ cfg.shortMessageTokenLimit then
      (if tokenEntropy tokenList < (cfg.minSignalEntropy : ℝ) then
        ((cfg.minSignalEntropy : ℝ) - tokenEntropy tokenList) * 0.06
      else 0)
    else 0
  max 0 (min 1 (blend - uniqueAdjustment - entropyAdjustment))

/-- The lexical composite score as claim C7 words it: the same blend but
with novelty weighted slightly higher than distance (the source's 0.55/0.45
weight pair, 0.55 on novelty), same adjustments and clamp. -/
noncomputable def claimC7LexicalScore (cfg : ResolvedConfig) (entryTokens : Finset String)
    (tokenList : List String) (baselineTokens : Finset String) : ℝ :=
  let distance := 1 - jaccardSimilarity entryTokens baselineTokens
  let novelty := noveltyRatio entryTokens baselineTokens
  let uniqueTokenRatio : ℝ :=
    if 0 < tokenList.length then (entryTokens.card : ℝ) / (tokenList.length : ℝ) else 0
  let blend := 0.45 * distance + 0.55 * novelty
  let uniqueAdjustment :=
    if uniqueTokenRatio < (cfg.minUniqueTokenRatio : ℝ) then
      ((cfg.minUniqueTokenRatio : ℝ) - uniqueTokenRatio) * 0.4
    else 0
  let entropyAdjustment :=
    if tokenList.length ≤ cfg.shortMessageTokenLimit then
      (if tokenEntropy tokenList < (cfg.minSignalEntropy : ℝ) then
        ((cfg.minSignalEntropy : ℝ) - tokenEntropy tokenList) * 0.06
      else 0)
    else 0
  max 0 (min 1 (blend - uniqueAdjustment - entropyAdjustment))

/-- The low-signal gate as claim C8 words it: stripped length, token count,
or token-frequency entropy below the configured floors. -/
noncomputable def claimC8Gate (cfg : ResolvedConfig) (text : String)
    (tokenList : List String) : Prop :=
  text.length < cfg.minSignalChars ∨ tokenList.length < cfg.minSignalTokenCount ∨
    tokenEntropy tokenList < (cfg.minSignalEntropy : ℝ)

theorem seedTopicCentroid_preserves (s : SessionState) (v : Option (List ℚ)) :
    (seedTopicCentroid s v).pendingSoftSignals = s.pendingSoftSignals ∧
      (seedTopicCentroid s v).history = s.history ∧
      (seedTopicCentroid s v).lastResetAt = s.lastResetAt ∧
      (seedTopicCentroid s v).pendingEntries = s.pendingEntries := by
  cases v with
  | none => exact ⟨rfl, rfl, rfl, rfl⟩
  | some l =>
    simp only [seedTopicCentroid]
    split <;> exact ⟨rfl, rfl, rfl, rfl⟩

theorem updateTopicCentroid_preserves (s : SessionState) (v : Option (List ℚ)) :
    (updateTopicCentroid s v).pendingSoftSignals = s.pendingSoftSignals ∧
      (updateTopicCentroid s v).history = s.history := by
  cases v with
  | none => exact ⟨rfl, rfl⟩
  | some l =>
    simp only [updateTopicCentroid]
    split
    · exact ⟨rfl, rfl⟩
    · split
      · split
        · exact ⟨rfl, rfl⟩
        · exact ⟨(seedTopicCentroid_preserves s (some l)).1,
            (seedTopicCentroid_preserves s (some l)).2.1⟩
      · exact ⟨(seedTopicCentroid_preserves s (some l)).1,
          (seedTopicCentroid_preserves s (some l)).2.1⟩

theorem classifyMessage_metrics_eq (cfg : ResolvedConfig) (state : SessionState)
    (cnt : ℕ) (lexical : LexicalFeatures) (sim : Option ℝ) (ue : Bool) (now : ℤ) :
    (classifyMessage cfg state cnt lexical sim ue now).metrics =
      { score := fusedScore lexical sim ue
        novelty := lexical.novelty
        lexicalDistance := lexical.lexicalDistance
        uniqueTokenRatio := lexical.uniqueTokenRatio
        entropy := lexical.entropy
        similarity := sim
        usedEmbedding := ue
        pendingSoftSignals := state.pendingSoftSignals } := by
  simp only [classifyMessage]
  split_ifs <;> rfl

theorem classifyMessage_warmup_of (cfg : ResolvedConfig) (state : SessionState)
    (cnt : ℕ) (lexical : LexicalFeatures) (sim : Option ℝ) (ue : Bool) (now : ℤ)
    (h : state.history.length < cfg.minHistoryMessages ∨ cnt < cfg.minMeaningfulTokens) :
    (classifyMessage cfg state cnt lexical sim ue now).kind = DecisionKind.warmup := by
  simp only [classifyMessage]
  rw [if_pos h]

theorem classifyMessage_cooldown_of (cfg : ResolvedConfig) (state : SessionState)
    (cnt : ℕ) (lexical : LexicalFeatures) (sim : Option ℝ) (ue : Bool) (now : ℤ)
    (h1 : ¬(state.history.length < cfg.minHistoryMessages ∨ cnt < cfg.minMeaningfulTokens))
    (h2 : cooldownActive cfg.cooldownMinutes state.lastResetAt now = true) :
    (classifyMessage cfg state cnt lexical sim ue now).kind = DecisionKind.stable ∧
      (classifyMessage cfg state cnt lexical sim ue now).reason = "cooldown" := by
  simp only [classifyMessage]
  rw [if_neg h1, if_pos h2]
  exact ⟨rfl, rfl⟩

theorem classifyMessage_rotateSoft_of (cfg : ResolvedConfig) (state : SessionState)
    (cnt : ℕ) (lexical : LexicalFeatures) (sim : Option ℝ) (ue : Bool) (now : ℤ)
    (h1 : ¬(state.history.length < cfg.minHistoryMessages ∨ cnt < cfg.minMeaningfulTokens))
    (h2 : cooldownActive cfg.cooldownMinutes state.lastResetAt now = false)
    (h3 : ¬ hardSignal cfg lexical sim ue (fusedScore lexical sim ue))
    (h4 : softSignal cfg lexical sim ue (fusedScore lexical sim ue))
    (h5 : cfg.softConsecutiveSignals ≤ state.pendingSoftSignals + 1) :
    (classifyMessage cfg state cnt lexical sim ue now).kind = DecisionKind.rotateSoft := by
  simp only [classifyMessage]
  rw [if_neg h1, if_neg (by simp [h2]), if_neg h3, if_neg (by simpa using h4), if_pos h5]

theorem rotateSessionEntry_dryRun_eq (cfg : ResolvedConfig) (key : String) (entry : HistoryEntry)
    (state : SessionState) (store : SessionStore) (newId : String) (now : ℤ)
    (h : cfg.dryRun = true) :
    rotateSessionEntry cfg key entry state store newId now =
      { rotated := true, store := store, state := state, lockUsed := false, storeRead := false
        storeWritten := false, warnedNoEntry := false, loggedWouldRotate := true } := by
  simp only [rotateSessionEntry, h, if_true]

theorem rotateSessionEntry_missing_eq (cfg : ResolvedConfig) (key : String) (entry : HistoryEntry)
    (state : SessionState) (store : SessionStore) (newId : String) (now : ℤ)
    (hd : cfg.dryRun = false) (hm : findStoreKey store key = none) :
    rotateSessionEntry cfg key entry state store newId now =
      { rotated := false, store := store, state := state, lockUsed := true, storeRead := true
        storeWritten := false, warnedNoEntry := true, loggedWouldRotate := false } := by
  simp only [rotateSessionEntry, hd, hm, Bool.false_eq_true, if_false]

theorem rotateSessionEntry_success_state (cfg : ResolvedConfig) (key : String)
    (entry : HistoryEntry) (state : SessionState) (store : SessionStore) (newId : String)
    (now : ℤ) (hd : cfg.dryRun = false)
    (hr : (rotateSessionEntry cfg key entry state store newId now).rotated = true) :
    (rotateSessionEntry cfg key entry state store newId now).state.pendingSoftSignals = 0 ∧
      (rotateSessionEntry cfg key entry state store newId now).state.lastResetAt = some now ∧
      (rotateSessionEntry cfg key entry state store newId now).state.history =
        trimHistory [entry] cfg.historyWindow ∧
      (rotateSessionEntry cfg key entry state store newId now).state.pendingEntries = [] := by
  rcases h1 : findStoreKey store key with _ | sk
  · rw [rotateSessionEntry_missing_eq cfg key entry state store newId now hd h1] at hr
    simp at hr
  · rcases h2 : List.lookup sk store with _ | cur
    · simp only [rotateSessionEntry, hd, h1, h2, Bool.false_eq_true, if_false] at hr
    · simp only [rotateSessionEntry, hd, h1, h2, Bool.false_eq_true, if_false]
      refine ⟨?_, ?_, ?_, ?_⟩
      · rw [(seedTopicCentroid_preserves _ _).1]
      · rw [(seedTopicCentroid_preserves _ _).2.2.1]
      · rw [(seedTopicCentroid_preserves _ _).2.1]
      · rw [(seedTopicCentroid_preserves _ _).2.2.2]

theorem applyDecision_rotate_state (cfg : ResolvedConfig) (key : String)
    (d : ClassificationDecision) (state : SessionState) (entry : HistoryEntry)
    (hash newId : String) (now : ℤ) (w : World)
    (h : d.kind = DecisionKind.rotateSoft ∨ d.kind = DecisionKind.rotateHard) :
    (applyDecision cfg key d state entry hash newId now w).1 =
      (rotateSessionEntry cfg key entry state w.store newId now).state := by
  rcases d with ⟨k, m, r⟩
  rcases h with h | h <;> obtain rfl : k = _ := h <;> rfl

/-- Claim C2 (amended): for every rotation attempt where no registry entry
matches the session key, `rotateSessionEntry` performs no write to the
registry (its contents are unchanged), returns a failure result rather than
throwing, logs a warning — and leaves the in-memory session state, including
its history window, unchanged (it does not reset it). -/
theorem rotation_missing_entry_no_write (cfg : ResolvedConfig) (key : String)
    (entry : HistoryEntry) (state : SessionState) (store : SessionStore) (newId : String)
    (now : ℤ) (hd : cfg.dryRun = false) (hm : findStoreKey store key = none) :
    (rotateSessionEntry cfg key entry state store newId now).rotated = false ∧
      (rotateSessionEntry cfg key entry state store newId now).storeWritten = false ∧
      (rotateSessionEntry cfg key entry state store newId now).store = store ∧
      (rotateSessionEntry cfg key entry state store newId now).warnedNoEntry = true ∧
      (rotateSessionEntry cfg key entry state store newId now).state = state := by
  rw [rotateSessionEntry_missing_eq cfg key entry state store newId now hd hm]
  exact ⟨rfl, rfl, rfl, rfl, rfl⟩

/-- Witness for C2: a concrete failed rotation against an empty registry. -/
theorem rotation_missing_entry_no_write_witness :
    cfgBalanced.dryRun = false ∧ findStoreKey [] "agent:main:main" = none ∧
      ((rotateSessionEntry cfgBalanced "agent:main:main" entryNew stateP [] "fresh-id" 200).rotated
          = false ∧
        (rotateSessionEntry cfgBalanced "agent:main:main" entryNew stateP [] "fresh-id"
              200).storeWritten = false ∧
        (rotateSessionEntry cfgBalanced "agent:main:main" entryNew stateP [] "fresh-id" 200).store
          = [] ∧
        (rotateSessionEntry cfgBalanced "agent:main:main" entryNew stateP [] "fresh-id"
              200).warnedNoEntry = true ∧
        (rotateSessionEntry cfgBalanced "agent:main:main" entryNew stateP [] "fresh-id" 200).state
          = stateP) :=
  ⟨rfl, rfl,
    rotation_missing_entry_no_write cfgBalanced "agent:main:main" entryNew stateP [] "fresh-id" 200
      rfl rfl⟩

/-- Counterexample to C2 as stated: on a failed rotation (no registry entry)
the in-memory session state does **not** reset its history window — the
history is left exactly as it was, not reduced to the triggering entry. -/
theorem rotation_missing_entry_counterexample :
    (rotateSessionEntry cfgBalanced "agent:main:main" entryNew stateP [] "fresh-id" 200).rotated
        = false ∧
      (rotateSessionEntry cfgBalanced "agent:main:main" entryNew stateP [] "fresh-id" 200).state.history
        = stateP.history ∧
      (rotateSessionEntry cfgBalanced "agent:main:main" entryNew stateP [] "fresh-id"
            200).state.history ≠ trimHistory [entryNew] cfgBalanced.historyWindow ∧
      (rotateSessionEntry cfgBalanced "agent:main:main" entryNew stateP [] "fresh-id"
            200).state.lastResetAt = none := by
  refine ⟨by decide, by decide, by decide, by decide⟩

/-- Claim C3 (amended): for every rotate decision taken with `dryRun`
enabled, `rotateSessionEntry` performs no lock acquisition, no registry read
and no registry write (the registry contents are unchanged) and reports
success, but the in-memory session state is also left completely unchanged —
it is *not* reset as if rotation occurred. -/
theorem dry_run_frame (cfg : ResolvedConfig) (key : String) (entry : HistoryEntry)
    (state : SessionState) (store : SessionStore) (newId : String) (now : ℤ)
    (h : cfg.dryRun = true) :
    (rotateSessionEntry cfg key entry state store newId now).lockUsed = false ∧
      (rotateSessionEntry cfg key entry state store newId now).storeRead = false ∧
      (rotateSessionEntry cfg key entry state store newId now).storeWritten = false ∧
      (rotateSessionEntry cfg key entry state store newId now).store = store ∧
      (rotateSessionEntry cfg key entry state store newId now).state = state ∧
      (rotateSessionEntry cfg key entry state store newId now).rotated = true ∧
      (rotateSessionEntry cfg key entry state store newId now).loggedWouldRotate = true := by
  rw [rotateSessionEntry_dryRun_eq cfg key entry state store newId now h]
  exact ⟨rfl, rfl, rfl, rfl, rfl, rfl, rfl⟩

/-- Witness for C3: a concrete dry-run rotation against a populated registry. -/
theorem dry_run_frame_witness :
    cfgDryRun.dryRun = true ∧
      ((rotateSessionEntry cfgDryRun "agent:main:main" entryNew stateP storeMain "fresh-id"
            200).lockUsed = false ∧
        (rotateSessionEntry cfgDryRun "agent:main:main" entryNew stateP storeMain "fresh-id"
              200).storeRead = false ∧
        (rotateSessionEntry cfgDryRun "agent:main:main" entryNew stateP storeMain "fresh-id"
              200).storeWritten = false ∧
        (rotateSessionEntry cfgDryRun "agent:main:main" entryNew stateP storeMain "fresh-id"
              200).store = storeMain ∧
        (rotateSessionEntry cfgDryRun "agent:main:main" entryNew stateP storeMain "fresh-id"
              200).state = stateP ∧
        (rotateSessionEntry cfgDryRun "agent:main:main" entryNew stateP storeMain "fresh-id"
              200).rotated = true ∧
        (rotateSessionEntry cfgDryRun "agent:main:main" entryNew stateP storeMain "fresh-id"
              200).loggedWouldRotate = true) :=
  ⟨rfl, dry_run_frame cfgDryRun "agent:main:main" entryNew stateP storeMain "fresh-id" 200 rfl⟩

/-- Counterexample to C3 as stated: in dry-run mode the in-memory session
state is **not** reset as if rotation occurred — `lastResetAt` stays unset,
the pending counter stays nonzero, and the history is not reduced to the
triggering entry, even though the registry holds a matching entry. -/
theorem dry_run_frame_counterexample :
    (rotateSessionEntry cfgDryRun "agent:main:main" entryNew stateP storeMain "fresh-id"
          200).state.lastResetAt = none ∧
      (rotateSessionEntry cfgDryRun "agent:main:main" entryNew stateP storeMain "fresh-id"
            200).state.pendingSoftSignals = 1 ∧
      (rotateSessionEntry cfgDryRun "agent:main:main" entryNew stateP storeMain "fresh-id"
            200).state.pendingEntries ≠ [] ∧
      (rotateSessionEntry cfgDryRun "agent:main:main" entryNew stateP storeMain "fresh-id"
            200).state.history ≠ trimHistory [entryNew] cfgDryRun.historyWindow := by
  refine ⟨by decide, by decide, by decide, by decide⟩

/-- Claim C1 (amended): for every session and every classified message, the
session's `pendingSoftSignals` counter is reset to 0 when the decision is
`warmup` or `stable`, and on `rotate-soft`/`rotate-hard` only when the
registry rotation actually succeeds in non-dry-run mode; when the rotation
path runs in dry-run mode, or fails to find a registry entry, the counter is
left unchanged.  It is incremented exactly when the decision is `suspect`. -/
theorem pendingSoftSignals_transitions (cfg : ResolvedConfig) (key : String)
    (d : ClassificationDecision) (state : SessionState) (entry : HistoryEntry)
    (hash newId : String) (now : ℤ) (w : World) :
    (d.kind = DecisionKind.warmup →
      (applyDecision cfg key d state entry hash newId now w).1.pendingSoftSignals = 0) ∧
    (d.kind = DecisionKind.stable →
      (applyDecision cfg key d state entry hash newId now w).1.pendingSoftSignals = 0) ∧
    (d.kind = DecisionKind.suspect →
      (applyDecision cfg key d state entry hash newId now w).1.pendingSoftSignals =
        state.pendingSoftSignals + 1) ∧
    ((d.kind = DecisionKind.rotateSoft ∨ d.kind = DecisionKind.rotateHard) →
      (cfg.dryRun = true →
        (applyDecision cfg key d state entry hash newId now w).1.pendingSoftSignals =
          state.pendingSoftSignals) ∧
      (cfg.dryRun = false → findStoreKey w.store key = none →
        (applyDecision cfg key d state entry hash newId now w).1.pendingSoftSignals =
          state.pendingSoftSignals) ∧
      (cfg.dryRun = false →
        (rotateSessionEntry cfg key entry state w.store newId now).rotated = true →
        (applyDecision cfg key d state entry hash newId now w).1.pendingSoftSignals = 0)) := by
  refine ⟨?_, ?_, ?_, ?_⟩
  · intro h
    rcases d with ⟨k, m, r⟩
    obtain rfl : k = DecisionKind.warmup := h
    show (updateTopicCentroid _ entry.embedding).pendingSoftSignals = 0
    rw [(updateTopicCentroid_preserves _ _).1]
  · intro h
    rcases d with ⟨k, m, r⟩
    obtain rfl : k = DecisionKind.stable := h
    rfl
  · intro h
    rcases d with ⟨k, m, r⟩
    obtain rfl : k = DecisionKind.suspect := h
    rfl
  · intro h
    refine ⟨?_, ?_, ?_⟩
    · intro hd
      rw [applyDecision_rotate_state cfg key d state entry hash newId now w h,
        rotateSessionEntry_dryRun_eq cfg key entry state w.store newId now hd]
    · intro hd hm
      rw [applyDecision_rotate_state cfg key d state entry hash newId now w h,
        rotateSessionEntry_missing_eq cfg key entry state w.store newId now hd hm]
    · intro hd hr
      rw [applyDecision_rotate_state cfg key d state entry hash newId now w h]
      exact (rotateSessionEntry_success_state cfg key entry state w.store newId now hd hr).1

/-- Witness for C1: concrete stable, suspect and successful hard-rotate
dispatches. -/
theorem pendingSoftSignals_transitions_witness :
    (applyDecision cfgBalanced "agent:main:main" ⟨DecisionKind.stable, metricsZero, "stable"⟩
        stateP entryNew "h0" "fresh-id" 200 worldEmpty).1.pendingSoftSignals = 0 ∧
      (applyDecision cfgBalanced "agent:main:main"
          ⟨DecisionKind.suspect, metricsZero, "soft-suspect"⟩ stateP entryNew "h0" "fresh-id" 200
          worldEmpty).1.pendingSoftSignals = stateP.pendingSoftSignals + 1 ∧
      (applyDecision cfgBalanced "agent:main:main"
          ⟨DecisionKind.rotateHard, metricsZero, "hard-threshold"⟩ stateP entryNew "h0" "fresh-id"
          200 { worldEmpty with store := storeMain }).1.pendingSoftSignals = 0 :=
  ⟨(pendingSoftSignals_transitions cfgBalanced "agent:main:main"
      ⟨DecisionKind.stable, metricsZero, "stable"⟩ stateP entryNew "h0" "fresh-id" 200
      worldEmpty).2.1 rfl,
    (pendingSoftSignals_transitions cfgBalanced "agent:main:main"
      ⟨DecisionKind.suspect, metricsZero, "soft-suspect"⟩ stateP entryNew "h0" "fresh-id" 200
      worldEmpty).2.2.1 rfl,
    ((pendingSoftSignals_transitions cfgBalanced "agent:main:main"
      ⟨DecisionKind.rotateHard, metricsZero, "hard-threshold"⟩ stateP entryNew "h0" "fresh-id" 200
      { worldEmpty with store := storeMain }).2.2.2 (Or.inr rfl)).2.2 rfl (by decide)⟩

/-- Counterexample to C1 as stated: a genuine `rotate-soft` classification
dispatched in dry-run mode leaves `pendingSoftSignals` at its old value 1
instead of resetting it to 0. -/
theorem pendingSoftSignals_dry_run_counterexample :
    (classifyMessage cfgDryRun stateP 10 lexSoft none false 100).kind =
        DecisionKind.rotateSoft ∧
      (applyDecision cfgDryRun "agent:main:main"
          (classifyMessage cfgDryRun stateP 10 lexSoft none false 100) stateP entryNew "h0"
          "fresh-id" 100 worldEmpty).1.pendingSoftSignals = 1 ∧
      (applyDecision cfgDryRun "agent:main:main"
          (classifyMessage cfgDryRun stateP 10 lexSoft none false 100) stateP entryNew "h0"
          "fresh-id" 100 worldEmpty).1.pendingSoftSignals ≠ 0 := by
  have hk : (classifyMessage cfgDryRun stateP 10 lexSoft none false 100).kind =
      DecisionKind.rotateSoft := by
    apply classifyMessage_rotateSoft_of
    · decide
    · decide
    · simp only [hardSignal, fusedScore, lexSoft, cfgDryRun, cfgBalanced]
      push_neg
      norm_num
    · simp only [softSignal, fusedScore, lexSoft, cfgDryRun, cfgBalanced]
      norm_num
    · decide
  have hstate : (applyDecision cfgDryRun "agent:main:main"
      (classifyMessage cfgDryRun stateP 10 lexSoft none false 100) stateP entryNew "h0"
      "fresh-id" 100 worldEmpty).1 = stateP := by
    rw [applyDecision_rotate_state cfgDryRun "agent:main:main" _ stateP entryNew "h0" "fresh-id"
      100 worldEmpty (Or.inl hk),
      rotateSessionEntry_dryRun_eq cfgDryRun "agent:main:main" entryNew stateP worldEmpty.store
      "fresh-id" 100 rfl]
  exact ⟨hk, by rw [hstate]; decide, by rw [hstate]; decide⟩

theorem applyDecision_warmup_state (cfg : ResolvedConfig) (key : String)
    (d : ClassificationDecision) (state : SessionState) (entry : HistoryEntry)
    (hash newId : String) (now : ℤ) (w : World) (h : d.kind = DecisionKind.warmup) :
    (applyDecision cfg key d state entry hash newId now w).1 =
      updateTopicCentroid
        { state with
          pendingSoftSignals := 0
          pendingEntries := []
          history := trimHistory (state.history ++ [entry]) cfg.historyWindow }
        entry.embedding := by
  rcases d with ⟨k, m, r⟩
  obtain rfl : k = DecisionKind.warmup := h
  rfl

theorem mem_trimHistory_append (l : List HistoryEntry) (e : HistoryEntry) (limit : ℕ)
    (h : 0 < limit) : e ∈ trimHistory (l ++ [e]) limit := by
  unfold trimHistory
  split
  · exact List.mem_append_right _ (by simp)
  · rename_i hlen
    have hk : (l ++ [e]).length - limit ≤ l.length := by
      simp only [List.length_append, List.length_singleton]
      omega
    rw [List.drop_append_eq_append_drop]
    refine List.mem_append_right _ ?_
    have : (l ++ [e]).length - limit - l.length = 0 := by omega
    rw [this]
    simp

/-- Claim C4: for every session whose `lastResetAt` is set and every message
classified strictly within `cooldownMinutes` (in milliseconds, with
`cooldownMinutes` positive) of that reset, `classifyMessage` returns the
forced `stable` decision with reason `cooldown` — never `rotate-soft` or
`rotate-hard` — regardless of score, novelty or distance, provided the
warmup minimums are met. -/
theorem cooldown_forces_stable (cfg : ResolvedConfig) (state : SessionState) (cnt : ℕ)
    (lexical : LexicalFeatures) (sim : Option ℝ) (ue : Bool) (now t : ℤ)
    (hmin : 0 < cfg.cooldownMinutes)
    (hset : state.lastResetAt = some t)
    (hwin : now - t < (cfg.cooldownMinutes : ℤ) * 60000)
    (hh : cfg.minHistoryMessages ≤ state.history.length)
    (hb : cfg.minMeaningfulTokens ≤ cnt) :
    (classifyMessage cfg state cnt lexical sim ue now).kind = DecisionKind.stable ∧
      (classifyMessage cfg state cnt lexical sim ue now).reason = "cooldown" ∧
      (classifyMessage cfg state cnt lexical sim ue now).kind ≠ DecisionKind.rotateSoft ∧
      (classifyMessage cfg state cnt lexical sim ue now).kind ≠ DecisionKind.rotateHard := by
  have h1 : ¬(state.history.length < cfg.minHistoryMessages ∨ cnt < cfg.minMeaningfulTokens) := by
    omega
  have hz : (0 : ℤ) < (cfg.cooldownMinutes : ℤ) := by exact_mod_cast hmin
  have h2 : cooldownActive cfg.cooldownMinutes state.lastResetAt now = true := by
    simp only [cooldownActive, hset, Bool.and_eq_true, decide_eq_true_eq]
    exact ⟨mul_pos hz (by norm_num), hwin⟩
  obtain ⟨hs, hr⟩ := classifyMessage_cooldown_of cfg state cnt lexical sim ue now h1 h2
  exact ⟨hs, hr, by rw [hs]; decide, by rw [hs]; decide⟩

/-- Witness for C4: a concrete in-cooldown message is forced `stable`. -/
theorem cooldown_forces_stable_witness :
    (classifyMessage cfgBalanced stateCooldown 10 lexSoft none false 100).kind =
        DecisionKind.stable ∧
      (classifyMessage cfgBalanced stateCooldown 10 lexSoft none false 100).reason = "cooldown" :=
  ⟨(cooldown_forces_stable cfgBalanced stateCooldown 10 lexSoft none false 100 0 (by decide)
      (by decide) (by decide) (by decide) (by decide)).1,
    (cooldown_forces_stable cfgBalanced stateCooldown 10 lexSoft none false 100 0 (by decide)
      (by decide) (by decide) (by decide) (by decide)).2.1⟩

/-- Claim C5: for every session whose retained history length is below
`minHistoryMessages` or whose baseline token-set size is below
`minMeaningfulTokens`, `classifyMessage` returns `warmup` regardless of
score; the warmup handling then appends the entry to the (window-trimmed)
history and resets the pending soft-signal counter to 0. -/
theorem warmup_below_minimums (cfg : ResolvedConfig) (key : String) (state : SessionState)
    (cnt : ℕ) (lexical : LexicalFeatures) (sim : Option ℝ) (ue : Bool) (now : ℤ)
    (entry : HistoryEntry) (hash newId : String) (w : World)
    (h : state.history.length < cfg.minHistoryMessages ∨ cnt < cfg.minMeaningfulTokens)
    (hwin : 0 < cfg.historyWindow) :
    (classifyMessage cfg state cnt lexical sim ue now).kind = DecisionKind.warmup ∧
      (applyDecision cfg key (classifyMessage cfg state cnt lexical sim ue now) state entry hash
          newId now w).1.pendingSoftSignals = 0 ∧
      (applyDecision cfg key (classifyMessage cfg state cnt lexical sim ue now) state entry hash
          newId now w).1.history = trimHistory (state.history ++ [entry]) cfg.historyWindow ∧
      entry ∈ (applyDecision cfg key (classifyMessage cfg state cnt lexical sim ue now) state
          entry hash newId now w).1.history := by
  have hk := classifyMessage_warmup_of cfg state cnt lexical sim ue now h
  have hst := applyDecision_warmup_state cfg key
    (classifyMessage cfg state cnt lexical sim ue now) state entry hash newId now w hk
  refine ⟨hk, ?_, ?_, ?_⟩
  · rw [hst, (updateTopicCentroid_preserves _ _).1]
  · rw [hst, (updateTopicCentroid_preserves _ _).2]
  · rw [hst, (updateTopicCentroid_preserves _ _).2]
    exact mem_trimHistory_append state.history entry cfg.historyWindow hwin

/-- Witness for C5: a fresh session's first message is classified `warmup`
and lands in the history with the pending counter at 0. -/
theorem warmup_below_minimums_witness :
    (classifyMessage cfgBalanced (freshSessionState 100) 0 lexSoft none false 100).kind =
        DecisionKind.warmup ∧
      (applyDecision cfgBalanced "agent:main:main"
          (classifyMessage cfgBalanced (freshSessionState 100) 0 lexSoft none false 100)
          (freshSessionState 100) entryNew "h0" "fresh-id" 100
          worldEmpty).1.pendingSoftSignals = 0 ∧
      entryNew ∈ (applyDecision cfgBalanced "agent:main:main"
          (classifyMessage cfgBalanced (freshSessionState 100) 0 lexSoft none false 100)
          (freshSessionState 100) entryNew "h0" "fresh-id" 100 worldEmpty).1.history :=
  ⟨(warmup_below_minimums cfgBalanced "agent:main:main" (freshSessionState 100) 0 lexSoft none
      false 100 entryNew "h0" "fresh-id" worldEmpty (by decide) (by decide)).1,
    (warmup_below_minimums cfgBalanced "agent:main:main" (freshSessionState 100) 0 lexSoft none
      false 100 entryNew "h0" "fresh-id" worldEmpty (by decide) (by decide)).2.1,
    (warmup_below_minimums cfgBalanced "agent:main:main" (freshSessionState 100) 0 lexSoft none
      false 100 entryNew "h0" "fresh-id" worldEmpty (by decide) (by decide)).2.2.2⟩

/-- Claim C6: whenever an embedding similarity was obtained the fused score
is 0.70·(1−similarity) + 0.15·lexicalDistance + 0.15·novelty, and without
one it is the lexical composite score.  (`usedEmbedding` is exactly
`similarity.isSome` at the call site.) -/
theorem fused_score_formula (cfg : ResolvedConfig) (state : SessionState) (cnt : ℕ)
    (lexical : LexicalFeatures) (sim : Option ℝ) (now : ℤ) :
    (classifyMessage cfg state cnt lexical sim sim.isSome now).metrics.score =
      match sim with
      | some s => 0.7 * (1 - s) + 0.15 * lexical.lexicalDistance + 0.15 * lexical.novelty
      | none => lexical.score := by
  rw [classifyMessage_metrics_eq]
  cases sim <;> rfl

/-- Claim C7 (amended): the lexical composite score is the weighted blend
0.55·lexicalDistance + 0.45·noveltyRatio — distance weighted slightly
higher than novelty — adjusted downward when `uniqueTokenRatio` is below its
floor and, for messages of at most `shortMessageTokenLimit` tokens, when the
entropy is below its floor, with the result clamped to [0,1]. -/
theorem lexical_composite_amended (cfg : ResolvedConfig) (entryTokens : Finset String)
    (tokenList : List String) (baselineTokens : Finset String) :
    (computeLexicalFeatures cfg entryTokens tokenList baselineTokens).score =
      specLexicalScore cfg entryTokens tokenList baselineTokens ∧
      0 ≤ (computeLexicalFeatures cfg entryTokens tokenList baselineTokens).score ∧
      (computeLexicalFeatures cfg entryTokens tokenList baselineTokens).score ≤ 1 := by
  refine ⟨?_, le_max_left _ _, max_le (by norm_num) (min_le_left _ _)⟩
  simp only [computeLexicalFeatures, specLexicalScore]
  split_ifs <;> ring_nf

/-- Counterexample to C7 as stated: on a concrete 7-token message against a
2-token baseline the source's score (0.55 on distance) differs from the
claimed novelty-weighted blend (0.55 on novelty): 971/1120 versus 969/1120. -/
theorem lexical_composite_counterexample :
    (computeLexicalFeatures cfgBalanced cur7 tokens7 base2).score ≠
      claimC7LexicalScore cfgBalanced cur7 tokens7 base2 := by
  have h1 : cur7.card = 7 := by decide
  have h2 : base2.card = 2 := by decide
  have h3 : (cur7 ∩ base2).card = 1 := by decide
  have h4 : (cur7.filter fun t => t ∉ base2).card = 6 := by decide
  have h5 : tokens7.length = 7 := by decide
  have hj : jaccardSimilarity cur7 base2 = 1 / 8 := by
    simp only [jaccardSimilarity, h1, h2, h3]
    norm_num
  have hn : noveltyRatio cur7 base2 = 6 / 7 := by
    simp only [noveltyRatio, h1, h4]
    norm_num
  have hL : (computeLexicalFeatures cfgBalanced cur7 tokens7 base2).score = 971 / 1120 := by
    simp only [computeLexicalFeatures, hj, hn, h1, h5, cfgBalanced]
    norm_num
  have hR : claimC7LexicalScore cfgBalanced cur7 tokens7 base2 = 969 / 1120 := by
    simp only [claimC7LexicalScore, hj, hn, h1, h5, cfgBalanced]
    norm_num
  rw [hL, hR]
  norm_num

/-- Claim C10: the fused (embedding) score path of `classifyMessage` is not
clamped to [0,1]: with a negative cosine similarity (e.g. −1, from opposite
vectors) and maximal lexical distance and novelty, the reported
`metrics.score` is 1.7 > 1; only the lexical-only composite score is
clamped to [0,1]. -/
theorem fused_score_unclamped :
    cosineSimilarity [(1 : ℚ)] [(-1 : ℚ)] = some (-1) ∧
      (computeLexicalFeatures cfgBalanced curD tokensD baseD).lexicalDistance = 1 ∧
      (computeLexicalFeatures cfgBalanced curD tokensD baseD).novelty = 1 ∧
      (classifyMessage cfgBalanced stateP 10
          (computeLexicalFeatures cfgBalanced curD tokensD baseD)
          (cosineSimilarity [(1 : ℚ)] [(-1 : ℚ)])
          (cosineSimilarity [(1 : ℚ)] [(-1 : ℚ)]).isSome 100).metrics.score = 17 / 10 ∧
      (1 : ℝ) < 17 / 10 ∧
      ∀ (cfg : ResolvedConfig) (tk : Finset String) (tl : List String) (bt : Finset String),
        0 ≤ (computeLexicalFeatures cfg tk tl bt).score ∧
          (computeLexicalFeatures cfg tk tl bt).score ≤ 1 := by
  have hcos : cosineSimilarity [(1 : ℚ)] [(-1 : ℚ)] = some (-1) := by
    simp [cosineSimilarity, Real.sqrt_one]
  have hc1 : curD.card = 3 := by decide
  have hc2 : baseD.card = 3 := by decide
  have hc3 : (curD ∩ baseD).card = 0 := by decide
  have hc4 : (curD.filter fun t => t ∉ baseD).card = 3 := by decide
  have hj0 : jaccardSimilarity curD baseD = 0 := by
    simp only [jaccardSimilarity, hc1, hc2, hc3]
    norm_num
  have hd : (computeLexicalFeatures cfgBalanced curD tokensD baseD).lexicalDistance = 1 := by
    simp only [computeLexicalFeatures, hj0]
    norm_num
  have hnov : (computeLexicalFeatures cfgBalanced curD tokensD baseD).novelty = 1 := by
    simp only [computeLexicalFeatures, noveltyRatio, hc1, hc4]
    norm_num
  refine ⟨hcos, hd, hnov, ?_, by norm_num, ?_⟩
  · rw [classifyMessage_metrics_eq, hcos]
    show fusedScore _ (some (-1)) (Option.isSome (some (-1))) = 17 / 10
    simp only [fusedScore, Option.isSome_some]
    rw [hd, hnov]
    norm_num
  · intro cfg tk tl bt
    exact ⟨le_max_left _ _, max_le (by norm_num) (min_le_left _ _)⟩

/-- Claim C9 (spec-modelled: the snapshot loader is absent from
`src/index.ts`; only the tests exercise it): a persisted snapshot whose
`version` differs from the expected schema version is discarded whole — no
session state and no dedupe entries are restored — and a warning is
emitted. -/
theorem snapshot_version_mismatch_discards (snap : PersistedSnapshot)
    (h : snap.version ≠ EXPECTED_STATE_VERSION) :
    loadPersistedSnapshot (some snap) = ([], [], true) := by
  simp [loadPersistedSnapshot, h]

/-- Witness for C9: the test suite's `version: 999` snapshot is discarded
with a warning. -/
theorem snapshot_version_mismatch_discards_witness :
    snap999.version ≠ EXPECTED_STATE_VERSION ∧
      loadPersistedSnapshot (some snap999) = ([], [], true) :=
  ⟨by decide, snapshot_version_mismatch_discards snap999 (by decide)⟩

theorem applyDecision_warmup_world (cfg : ResolvedConfig) (key : String)
    (d : ClassificationDecision) (state : SessionState) (entry : HistoryEntry)
    (hash newId : String) (now : ℤ) (w : World) (h : d.kind = DecisionKind.warmup) :
    (applyDecision cfg key d state entry hash newId now w).2.1 =
      { w with
        sessionState := pruneStateMaps now (assocSet w.sessionState key
          (updateTopicCentroid
            { state with
              pendingSoftSignals := 0
              pendingEntries := []
              history := trimHistory (state.history ++ [entry]) cfg.historyWindow }
            entry.embedding)) } := by
  rcases d with ⟨k, m, r⟩
  obtain rfl : k = DecisionKind.warmup := h
  rfl

/-- Claim C8 (amended): an inbound message is discarded by the low-signal
gate — logged as a skip, with the world (session states, dedupe map,
registry) left untouched — exactly when its stripped length is below
`minSignalChars` or its token count is below `minSignalTokenCount`; the
token-frequency entropy is *not* consulted by the gate (it only feeds the
scoring), so low-entropy messages of sufficient length and token count do
reach the classifier. -/
theorem low_signal_gate (cfg : ResolvedConfig) (keyRaw provider text : String)
    (backendAvailable : Bool) (embedResult : Option (List ℚ)) (newId : String) (now : ℤ)
    (w : World)
    (he : cfg.enabled = true)
    (hk : ¬ jsTrim keyRaw = "")
    (hp : ¬(provider ≠ "" ∧ provider ∈ cfg.ignoredProviders))
    (ht : ¬(text = "" ∨ startsWithSlash text = true))
    (hg : text.length < cfg.minSignalChars ∨
      (tokenizeList text cfg.minTokenLength).length < cfg.minSignalTokenCount) :
    classifyAndMaybeRotate cfg keyRaw provider text backendAvailable embedResult newId now w =
      (w, { skippedLowSignal := true }) := by
  simp only [classifyAndMaybeRotate]
  rw [if_neg (by simp [he]), if_neg hk, if_neg hp, if_neg ht, if_pos hg]

/-- Witness for C8: a 12-character message is discarded by the gate with the
world untouched. -/
theorem low_signal_gate_witness :
    classifyAndMaybeRotate cfgBalanced "agent:main:main" "" "hi there you" false none "fresh-id"
        100 worldEmpty = (worldEmpty, { skippedLowSignal := true }) :=
  low_signal_gate cfgBalanced "agent:main:main" "" "hi there you" false none "fresh-id" 100
    worldEmpty rfl (by decide) (by simp) (by decide) (Or.inl (by decide))

theorem updateTopicCentroid_lastSeenAt (s : SessionState) (v : Option (List ℚ)) :
    (updateTopicCentroid s v).lastSeenAt = s.lastSeenAt := by
  cases v with
  | none => rfl
  | some l =>
    simp only [updateTopicCentroid, seedTopicCentroid]
    repeat' split
    all_goals rfl

theorem pruneStateMaps_singleton_ne_nil (now : ℤ) (k : String) (v : SessionState)
    (h : now - v.lastSeenAt ≤ STALE_SESSION_STATE_MS) :
    pruneStateMaps now (assocSet [] k v) ≠ [] := by
  have h2 : now ≤ STALE_SESSION_STATE_MS + v.lastSeenAt := by omega
  simp [pruneStateMaps, assocSet, h2, MAX_TRACKED_SESSIONS]

/-- Counterexample to C8 as stated: `txtLowEntropy` (24 chars, 5 tokens, but
token-frequency entropy 0, far below the 1.2 floor) satisfies the claimed
gate, yet the pipeline does not discard it — no low-signal skip is logged
and the session-state map is mutated. -/
theorem low_signal_gate_counterexample :
    claimC8Gate cfgBalanced txtLowEntropy
        (tokenizeList txtLowEntropy cfgBalanced.minTokenLength) ∧
      (classifyAndMaybeRotate cfgBalanced "agent:main:main" "" txtLowEntropy false none
          "fresh-id" 100 worldEmpty).2.skippedLowSignal = false ∧
      (classifyAndMaybeRotate cfgBalanced "agent:main:main" "" txtLowEntropy false none
          "fresh-id" 100 worldEmpty).1.sessionState ≠ worldEmpty.sessionState := by
  refine ⟨?_, ?_, ?_⟩
  · have htok : tokenizeList txtLowEntropy cfgBalanced.minTokenLength =
        ["aaaa", "aaaa", "aaaa", "aaaa", "aaaa"] := by decide
    have hc : List.count "aaaa" ["aaaa", "aaaa", "aaaa", "aaaa", "aaaa"] = 5 := by decide
    have hded : (["aaaa", "aaaa", "aaaa", "aaaa", "aaaa"] : List String).dedup = ["aaaa"] := by
      decide
    have hent : tokenEntropy ["aaaa", "aaaa", "aaaa", "aaaa", "aaaa"] = 0 := by
      simp only [tokenEntropy, hded]
      rw [if_neg (by decide)]
      simp [hc, Real.logb_one]
    refine Or.inr (Or.inr ?_)
    rw [htok, hent]
    norm_num [cfgBalanced]
  · simp only [classifyAndMaybeRotate]
    rw [if_neg (by decide), if_neg (by decide), if_neg (by simp), if_neg (by decide),
      if_neg (by decide), if_neg (by decide)]
  · simp only [classifyAndMaybeRotate]
    rw [if_neg (by decide), if_neg (by decide), if_neg (by simp), if_neg (by decide),
      if_neg (by decide), if_neg (by decide)]
    rw [applyDecision_warmup_world _ _ _ _ _ _ _ _ _
      (classifyMessage_warmup_of _ _ _ _ _ _ _ (Or.inl (by decide)))]
    show pruneStateMaps 100 (assocSet worldEmpty.sessionState "agent:main:main" _) ≠ _
    have hws : worldEmpty.sessionState = ([] : List (String × SessionState)) := rfl
    rw [hws]
    exact pruneStateMaps_singleton_ne_nil 100 "agent:main:main" _
      (by rw [updateTopicCentroid_lastSeenAt]; decide)
